import Mathlib

/-!
Verification of the peninemate hybrid retrieval and context resolution engine.

The Python sources under `backend/peninemate/core_logic` are shallowly embedded
below.  Strings are modelled as `List Char` (`Str`); the PostgreSQL `movies`
table is modelled as a `List MovieRow`; the FAISS index is modelled by its
vector count together with the parallel metadata list; external collaborators
(embedding service, TMDb API, index search) are opaque parameters.  Rational
numbers stand in for Python floats (no float-specific behaviour is at stake in
the verified properties).
-/

/-- Strings are modelled as lists of characters. -/
abbrev Str : Type := List Char

namespace PyStr

/-- The apostrophe character, used in several regex character classes. -/
def apos : Char := Char.ofNat 39

/-- ASCII lower-casing of one character (Python `str.lower` restricted to ASCII,
which covers all data in the verified properties). -/
def lowerChar (c : Char) : Char :=
  if ('A' ≤ c && c ≤ 'Z') then Char.ofNat (c.toNat + 32) else c

/-- Python `s.lower()` (ASCII fragment). -/
def toLower (s : Str) : Str := s.map lowerChar

/-- Characters matched by the regex class `\s` and stripped by Python
`str.strip()` (ASCII fragment: space, tab, newline, carriage return,
vertical tab, form feed). -/
def isSpace (c : Char) : Bool :=
  c == ' ' || c == '\t' || c == '\n' || c == '\r' ||
  c == Char.ofNat 11 || c == Char.ofNat 12

/-- Python `str.lstrip()`. -/
def lstrip (s : Str) : Str := s.dropWhile isSpace

/-- Python `str.rstrip()`. -/
def rstrip (s : Str) : Str := (s.reverse.dropWhile isSpace).reverse

/-- Python `str.strip()`. -/
def strip (s : Str) : Str := rstrip (lstrip s)

/-- Python `str.rstrip(chars)`: drop trailing characters belonging to `chars`. -/
def rstripSet (chars : Str) (s : Str) : Str :=
  (s.reverse.dropWhile (fun c => chars.contains c)).reverse

/-- Substring containment, Python `needle in haystack`. -/
def contains (haystack needle : Str) : Bool :=
  haystack.tails.any (fun t => needle.isPrefixOf t)

/-- Python `str.find`: index of the first occurrence of `needle` in
`haystack`, or `-1` when absent. -/
def findSub (haystack needle : Str) : Int :=
  go haystack 0
where
  go : Str → Nat → Int
    | [], i => if needle.isEmpty then (i : Int) else -1
    | c :: rest, i =>
      if needle.isPrefixOf (c :: rest) then (i : Int)
      else go rest (i + 1)

/-- Python `str.replace(old, new)` with non-empty `old`: replace every
occurrence, left to right, non-overlapping. -/
def replaceAll (s old new : Str) : Str :=
  go s.length s
where
  go : Nat → Str → Str
    | 0, rest => rest
    | _ + 1, [] => []
    | fuel + 1, c :: rest =>
      if old.isPrefixOf (c :: rest) && !old.isEmpty then
        new ++ go fuel ((c :: rest).drop old.length)
      else
        c :: go fuel rest

/-- One application of the regex substitution `re.sub(r'\s+', ' ', s)`:
collapse every maximal run of whitespace to a single space. -/
def collapseSpaces (s : Str) : Str :=
  go s.length s
where
  go : Nat → Str → Str
    | 0, rest => rest
    | _ + 1, [] => []
    | fuel + 1, c :: rest =>
      if isSpace c then
        ' ' :: go fuel (rest.dropWhile isSpace)
      else
        c :: go fuel rest

/-- Python `str.split(',')` (comma split, keeping empty fields). -/
def splitComma (s : Str) : List Str :=
  go s.length s []
where
  go : Nat → Str → Str → List Str
    | 0, rest, acc => [acc.reverse ++ rest]
    | _ + 1, [], acc => [acc.reverse]
    | fuel + 1, c :: rest, acc =>
      if c == ',' then acc.reverse :: go fuel rest []
      else go fuel rest (c :: acc)

/-- ASCII decimal digit test (regex `\d`, ASCII fragment). -/
def isDigitChar (c : Char) : Bool := '0' ≤ c && c ≤ '9'

/-- Regex word character `\w` (ASCII fragment: letters, digits, underscore). -/
def isWordChar (c : Char) : Bool :=
  ('a' ≤ c && c ≤ 'z') || ('A' ≤ c && c ≤ 'Z') || isDigitChar c || c == '_'

/-- ASCII uppercase letter test (regex class `[A-Z]`). -/
def isUpperAZ (c : Char) : Bool := 'A' ≤ c && c ≤ 'Z'

/-- ASCII letter test (regex class `[A-Za-z]`). -/
def isLetterAZ (c : Char) : Bool :=
  ('a' ≤ c && c ≤ 'z') || ('A' ≤ c && c ≤ 'Z')

/-- Numeric value of a decimal digit string; `none` if any character is not a
digit or the string is empty (a failing Python `int(...)`). -/
def parseNat (s : Str) : Option Nat :=
  if s.isEmpty then none
  else
    s.foldl
      (fun acc c =>
        match acc with
        | none => none
        | some n => if isDigitChar c then some (n * 10 + (c.toNat - 48)) else none)
      (some 0)

end PyStr

/-- Python list indexing `xs[i]` for `Int` indices: nonnegative indices count
from the front, negative indices from the back; out of range is `none`
(an `IndexError`). -/
def pyListGet {α : Type} (xs : List α) (i : Int) : Option α :=
  if 0 ≤ i then xs[i.toNat]?
  else
    let j : Int := (xs.length : Int) + i
    if 0 ≤ j then xs[j.toNat]? else none

/-!
A small interpreter for the fragment of Python regular expressions used by
`qa_service.answer_question`.  Only match existence matters for intent
dispatch (`re.search(pattern, s)` used as a boolean), so the interpreter
computes the set of possible remainders after matching a prefix of the input;
`re.search` succeeds iff some suffix of the input admits a non-empty remainder
set.  `.` is modelled as "any character" (the analysed inputs contain no
newline), `\s` and `\w` as their ASCII fragments.
-/

/-- Regex fragment: literals, `\s+`, lazy `(.+?)` (existence-equivalent to
"one or more arbitrary characters"), alternation, concatenation, optional
groups, and the trailing `(?:\?|$)` anchor alternative. -/
inductive Rx : Type where
  | lit : Str → Rx
  | ws : Rx
  | anyPlus : Rx
  | alt : Rx → Rx → Rx
  | cat : Rx → Rx → Rx
  | opt : Rx → Rx
  | eoq : Rx

namespace Rx

/-- All suffixes of `cs` obtained by removing a non-empty prefix. -/
def properSuffixes : Str → List Str
  | [] => []
  | _ :: rest => rest.tails

/-- The set (as a list) of possible remainders after the pattern consumes a
prefix of the input. -/
def accepts : Rx → Str → List Str
  | lit l, cs => if l.isPrefixOf cs then [cs.drop l.length] else []
  | ws, cs =>
    -- remainders after consuming 1..n leading whitespace characters
    (List.range cs.length).filterMap (fun k =>
      let pre := cs.take (k + 1)
      if pre.length == k + 1 && pre.all PyStr.isSpace then some (cs.drop (k + 1)) else none)
  | anyPlus, cs => properSuffixes cs
  | alt p q, cs => (accepts p cs ++ accepts q cs).eraseDups
  | cat p q, cs => ((accepts p cs).flatMap (accepts q)).eraseDups
  | opt p, cs => (cs :: accepts p cs).eraseDups
  | eoq, cs =>
    (if cs.head? == some '?' then [cs.drop 1] else []) ++
    (if cs.isEmpty then [([] : Str)] else [])

/-- Python `re.search(p, s)` used as a boolean: does the pattern match
starting at any position? -/
def search (p : Rx) (cs : Str) : Bool :=
  cs.tails.any (fun suffix => !(accepts p suffix).isEmpty)

/-- Sequence a list of pattern pieces. -/
def seqAll (ps : List Rx) : Rx :=
  match ps with
  | [] => lit []
  | [p] => p
  | p :: rest => cat p (seqAll rest)

/-- Alternation over a list of literal words (regex `(?:a|b|...)`). -/
def words (ws : List Str) : Rx :=
  match ws with
  | [] => lit []
  | [w] => lit w
  | w :: rest => alt (lit w) (words rest)

end Rx

/-! ## Data model -/

/-- Provenance tag attached to transient search results. -/
inductive Source : Type where
  | database | keyword | semantic | tmdbApiLazyLoaded
deriving DecidableEq

/-- Exceptions relevant to the embedded code paths. -/
inductive PyErr : Type where
  | indexError | fileNotFound
deriving DecidableEq

deriving instance DecidableEq for Except

/-- One row of the PostgreSQL `movies` table.  Fields not consulted by the
verified properties (vote counts, poster paths, box office splits, genres)
are omitted. -/
structure MovieRow : Type where
  tmdbId : Nat
  title : Str
  overview : Option Str
  year : Option Int
  popularity : Option ℚ
deriving DecidableEq

/-- One entry of the FAISS metadata list `faiss_metadata.json`.  The
`popularity` key is present in entries appended by the orchestrator and absent
(`none`) in entries appended by `faiss_ops.add_movie_to_faiss`. -/
structure Meta : Type where
  tmdbId : Nat
  title : Str
  year : Option Int
  popularity : Option ℚ
deriving DecidableEq

/-- A result dictionary produced by `SearchOrchestrator._search_faiss`:
a copy of the metadata entry plus the raw FAISS distance and a source tag. -/
structure FaissResult : Type where
  tmdbId : Nat
  title : Str
  year : Option Int
  popularity : Option ℚ
  distance : ℚ
  source : Source
deriving DecidableEq

/-- A transient search-result dictionary as passed around by the orchestrator
and Q&A service.  `source` is `none` for the dictionaries built by
`_insert_movie_to_db`, which carry no source key.  Fields not consulted by the
verified properties are omitted. -/
structure ResultMovie : Type where
  tmdbId : Nat
  title : Str
  overview : Option Str
  year : Option Int
  popularity : ℚ
  source : Option Source
deriving DecidableEq

/-- A candidate dictionary returned by the TMDb `search_movies` API.
`releaseDate` is the raw string, empty when missing (the code's
`get('release_date', '')` default). -/
structure TmdbMovie : Type where
  id : Nat
  title : Str
  overview : Str
  releaseDate : Str
  popularity : ℚ
deriving DecidableEq

/-- The orchestrator's mutable process-wide state: the record store (the
`movies` table) and the vector index store (vector count plus the parallel
metadata list).  `hasIndex` is false when `self.index is None`. -/
structure OrchState : Type where
  movies : List MovieRow
  hasIndex : Bool
  ntotal : Nat
  metadata : List Meta
deriving DecidableEq

/-- The execution phases of `search_hybrid`, recorded in order. -/
inductive Phase : Type where
  | semantic | keyword | tmdbFallback
deriving DecidableEq

/-! ## search_orchestrator.py -/

namespace SearchOrchestrator

open PyStr

/-- First match of the regex `\b(19\d{2}|20\d{2})\b` via `re.search`: the
leftmost four-digit year 19xx/20xx delimited by non-word characters (or the
string edges), returned as the matched string. -/
def findYearWB (s : Str) : Option Str :=
  go none s
where
  go : Option Char → Str → Option Str
    | prev, c0 :: c1 :: c2 :: c3 :: rest =>
      if prev.all (fun p => !isWordChar p) &&
         ((c0 == '1' && c1 == '9') || (c0 == '2' && c1 == '0')) &&
         isDigitChar c2 && isDigitChar c3 &&
         (rest.head?.all (fun n => !isWordChar n)) then
        some [c0, c1, c2, c3]
      else
        go (some c0) (c1 :: c2 :: c3 :: rest)
    | _, _ => none

/-- The first captured year of the original query as an integer
(`int(year_match.group(1))`). -/
def targetYearOf (s : Str) : Option Int :=
  (findYearWB s).bind (fun ys => (parseNat ys).map (fun n => (n : Int)))

/-- `SearchOrchestrator._enhance_query`: rule-based query rewriting; the first
matching rule wins, otherwise the query passes through. -/
def enhance_query (query : Str) : Str :=
  let ql := toLower query
  if contains ql ("titanic".data) then
    if contains ql ("1997".data) || contains ql ("97".data) then
      ("Titanic 1997 James Cameron Leonardo DiCaprio Kate Winslet romance epic disaster".data)
    else if contains ql ("1996".data) || contains ql ("96".data) then
      ("Titanic 1996 television movie".data)
    else if contains ql ("leonardo".data) || contains ql ("dicaprio".data) then
      ("Titanic 1997 James Cameron Leonardo DiCaprio Kate Winslet Jack Rose".data)
    else if contains ql ("kate".data) || contains ql ("winslet".data) then
      ("Titanic 1997 James Cameron Kate Winslet Leonardo DiCaprio Rose".data)
    else
      ("Titanic 1997 James Cameron Leonardo DiCaprio".data)
  else if contains ql ("demon slayer".data) || contains ql ("kimetsu".data) then
    ("Demon Slayer Kimetsu no Yaiba Mugen Train 2020 anime".data)
  else if (contains ql ("dream".data) || contains ql ("mimpi".data)) &&
          (contains ql ("steal".data) || contains ql ("theft".data)) then
    ("Inception 2010 Christopher Nolan Leonardo DiCaprio dream heist".data)
  else
    match findYearWB query with
    | some year => strip (replaceAll query year []) ++ [' '] ++ year
    | none => query

/-- `SearchOrchestrator._is_vague_question`: substring containment of any
pattern from the fixed list in the lower-cased question. -/
def vague_patterns : List Str :=
  [("that film".data), ("that movie".data), ("this film".data), ("this movie".data),
   ("it".data), ("its".data), ("their".data), ("they".data), ("the cast".data),
   ("the director".data), ("who is".data), ("what is".data), ("when was".data),
   ("where was".data), ("from that".data), ("from this".data), ("about it".data),
   ("about them".data)]

/-- `SearchOrchestrator._is_vague_question`. -/
def is_vague_question (question : Str) : Bool :=
  vague_patterns.any (fun p => contains (toLower question) p)

/-- Result dictionary built in the `_search_faiss` loop: copy of the metadata
entry plus the raw distance and the `semantic` tag. -/
def mkFaissResult (m : Meta) (d : ℚ) : FaissResult :=
  ⟨m.tmdbId, m.title, m.year, m.popularity, d, Source.semantic⟩

/-- The result-collection loop of `_search_faiss` over the raw FAISS hits
`(ordinal, distance)`: the guard `idx < len(self.metadata)` admits any smaller
ordinal (including the padding ordinal `-1`), and the metadata list is then
indexed with Python semantics; an out-of-range access is an `IndexError`. -/
def search_faiss_loop (meta : List Meta) : List (Int × ℚ) → Except PyErr (List FaissResult)
  | [] => .ok []
  | (idx, d) :: rest =>
    if idx < (meta.length : Int) then
      match pyListGet meta idx with
      | some m => (search_faiss_loop meta rest).map (fun rs => mkFaissResult m d :: rs)
      | none => .error .indexError
    else
      search_faiss_loop meta rest

/-- `SearchOrchestrator._search_faiss` given the raw hits produced by the
embedding service and `self.index.search` (opaque externals): returns `[]`
when no index is loaded. -/
def search_faiss (st : OrchState) (hits : List (Int × ℚ)) : Except PyErr (List FaissResult) :=
  if st.hasIndex then search_faiss_loop st.metadata hits else .ok []

/-- `SearchOrchestrator._get_movie_from_db` over the modelled `movies` table:
`SELECT ... WHERE tmdb_id = %s`, with NULL popularity coerced to `0.0` and a
`database` source tag.  The credits sub-queries populate fields not consulted
by the verified properties. -/
def get_movie_from_db (movies : List MovieRow) (tmdbId : Nat) : Option ResultMovie :=
  (movies.find? (fun r => r.tmdbId == tmdbId)).map (fun r =>
    ⟨r.tmdbId, r.title, r.overview, r.year, r.popularity.getD 0, some Source.database⟩)

/-- SQL `field ILIKE '%query%'`: case-insensitive substring containment (the
interpolated query contains no wildcard metacharacters in the verified
properties). -/
def ilike (field query : Str) : Bool :=
  contains (toLower field) (toLower query)

/-- SQL ordering key comparison for `ORDER BY popularity DESC NULLS LAST`:
higher popularity first, NULL popularity after every value. -/
def popGEb : Option ℚ → Option ℚ → Bool
  | none, none => true
  | none, some _ => false
  | some _, none => true
  | some x, some y => decide (y ≤ x)

/-- SQL `ORDER BY popularity DESC NULLS LAST` as a relation on rows. -/
def popDescNullsLast (a b : MovieRow) : Prop :=
  popGEb a.popularity b.popularity = true

instance : DecidableRel popDescNullsLast := fun a b =>
  inferInstanceAs (Decidable (popGEb a.popularity b.popularity = true))

instance : IsTotal MovieRow popDescNullsLast where
  total a b := by
    unfold popDescNullsLast
    cases a.popularity <;> cases b.popularity <;> simp [popGEb]
    exact le_total _ _

set_option linter.unnecessarySeqFocus false in
instance : IsTrans MovieRow popDescNullsLast where
  trans a b c hab hbc := by
    unfold popDescNullsLast at *
    revert hab hbc
    cases a.popularity <;> cases b.popularity <;> cases c.popularity <;>
      simp [popGEb] <;> exact fun h1 h2 => le_trans h2 h1

/-- The WHERE clause of `search_keyword`:
`title ILIKE '%query%' OR overview ILIKE '%query%'` (a NULL overview fails
the ILIKE test). -/
def keywordWhere (query : Str) (r : MovieRow) : Bool :=
  ilike r.title query ||
  (match r.overview with
   | some o => ilike o query
   | none => false)

/-- The row set of the `search_keyword` SQL query before LIMIT: matching rows
ordered by `popularity DESC NULLS LAST` (modelled by a stable sort under the
SQL ordering). -/
def search_keyword_rows (movies : List MovieRow) (query : Str) : List MovieRow :=
  List.insertionSort popDescNullsLast (movies.filter (keywordWhere query))

/-- `SearchOrchestrator.search_keyword`: one SQL query
`WHERE title ILIKE %q% OR overview ILIKE %q% ORDER BY popularity DESC NULLS
LAST LIMIT limit`, result rows tagged `keyword`. -/
def search_keyword (movies : List MovieRow) (query : Str) (limit : Nat) : List ResultMovie :=
  ((search_keyword_rows movies query).take limit).map (fun r =>
    ⟨r.tmdbId, r.title, r.overview, r.year, r.popularity.getD 0, some Source.keyword⟩)

/-- Upsert of `_insert_movie_to_db`: `ON CONFLICT (tmdb_id) DO UPDATE SET
title = EXCLUDED.title, overview = EXCLUDED.overview` — conflicting rows keep
their stored year and popularity. -/
def upsertMovie (movies : List MovieRow) (row : MovieRow) : List MovieRow :=
  if movies.any (fun r => r.tmdbId == row.tmdbId) then
    movies.map (fun r =>
      if r.tmdbId == row.tmdbId then
        ⟨r.tmdbId, row.title, row.overview, r.year, r.popularity⟩
      else r)
  else
    movies ++ [row]

/-- `SearchOrchestrator._insert_movie_to_db`: parse the year from the release
date (a failing `int(...)` aborts the insert and returns `None`), upsert the
row, and return the updated table plus the result dictionary (which carries no
source key). -/
def insert_movie_to_db (movies : List MovieRow) (m : TmdbMovie) :
    Option (List MovieRow × ResultMovie) :=
  let yearOpt : Option (Option Int) :=
    if m.releaseDate.isEmpty then some none
    else
      match parseNat (m.releaseDate.take 4) with
      | some n => some (some (n : Int))
      | none => none
  match yearOpt with
  | none => none
  | some year =>
    let movies' := upsertMovie movies ⟨m.id, m.title, some m.overview, year, some m.popularity⟩
    some (movies', ⟨m.id, m.title, some m.overview, year, m.popularity, none⟩)

/-- `SearchOrchestrator._add_to_faiss_index`: no-op when no index is loaded;
otherwise appends one vector (the embedding of the synthesized rich text,
opaque) and one metadata entry, then persists both files. -/
def add_to_faiss_index (st : OrchState) (movie : ResultMovie) : OrchState :=
  if st.hasIndex then
    ⟨st.movies, st.hasIndex, st.ntotal + 1,
     st.metadata ++ [⟨movie.tmdbId, movie.title, movie.year, some movie.popularity⟩]⟩
  else
    st

/-- `SearchOrchestrator._search_and_add_from_tmdb` given the candidate list
returned by the TMDb API: for each of the first five candidates, reuse the
record-store row when the identifier is already known, otherwise insert the
row and append it to the vector index. -/
def search_and_add_from_tmdb (st : OrchState) (tmdbResults : List TmdbMovie) :
    List ResultMovie × OrchState :=
  go st (tmdbResults.take 5)
where
  go : OrchState → List TmdbMovie → List ResultMovie × OrchState
    | st, [] => ([], st)
    | st, m :: rest =>
      match get_movie_from_db st.movies m.id with
      | some existing =>
        let (ms, st') := go st rest
        (existing :: ms, st')
      | none =>
        match insert_movie_to_db st.movies m with
        | none => go st rest
        | some (movies', newMovie) =>
          let st1 := add_to_faiss_index ⟨movies', st.hasIndex, st.ntotal, st.metadata⟩ newMovie
          let (ms, st') := go st1 rest
          (newMovie :: ms, st')

/-- Year boosting (Step 3 of `search_hybrid`): results matching the target
year are stably partitioned to the front; nothing happens when no result
matches or no year was given. -/
def yearBoost (targetYear : Option Int) (results : List ResultMovie) : List ResultMovie :=
  match targetYear with
  | none => results
  | some y =>
    if results.isEmpty then results
    else
      let exact := results.filter (fun m => m.year == some y)
      let other := results.filter (fun m => !(m.year == some y))
      if exact.isEmpty then results else exact ++ other

/-- Deduplication and truncation (Step 6 of `search_hybrid`): first occurrence
of each identifier wins; the loop breaks as soon as the accumulated length
reaches the limit (checked after each append, as in the source). -/
def dedupLimit (limit : Nat) (results : List ResultMovie) : List ResultMovie :=
  go [] [] results
where
  go : List Nat → List ResultMovie → List ResultMovie → List ResultMovie
    | _, acc, [] => acc.reverse
    | seen, acc, m :: rest =>
      if seen.contains m.tmdbId then go seen acc rest
      else if limit ≤ acc.length + 1 then (m :: acc).reverse
      else go (m.tmdbId :: seen) (m :: acc) rest

/-- The opaque external collaborators of `search_hybrid` together with the
orchestrator state: `faissHits query k` is the raw output of the embedding
service plus `self.index.search`, and `tmdbSearch query` the candidate list of
the TMDb API. -/
structure HybridEnv : Type where
  state : OrchState
  faissHits : Str → Nat → List (Int × ℚ)
  tmdbSearch : Str → List TmdbMovie

/-- Steps 1–3 of `search_hybrid`: FAISS semantic search over the enhanced
query with a pool of `limit*5`, enrichment of each hit from PostgreSQL, and
year boosting. -/
def semantic_enriched (env : HybridEnv) (query : Str) (limit : Nat) :
    Except PyErr (List ResultMovie) :=
  let enhanced := enhance_query query
  (search_faiss env.state (env.faissHits enhanced (limit * 5))).map (fun frs =>
    yearBoost (targetYearOf query)
      (frs.filterMap (fun r => get_movie_from_db env.state.movies r.tmdbId)))

/-- `SearchOrchestrator.search_hybrid`: semantic search first, keyword search
when the enriched results are empty or fewer than 2, TMDb fallback when still
empty, then deduplication and truncation.  Returns the final results, the
updated state, and the list of executed phases in order. -/
def search_hybrid (env : HybridEnv) (query : Str) (limit : Nat) :
    Except PyErr (List ResultMovie × OrchState × List Phase) :=
  (semantic_enriched env query limit).map (fun enriched =>
    let runKeyword := enriched.isEmpty || enriched.length < 2
    let afterKeyword :=
      if runKeyword then
        enriched ++ search_keyword env.state.movies (enhance_query query) limit
      else enriched
    let runTmdb := afterKeyword.isEmpty
    let (afterTmdb, st') :=
      if runTmdb then
        let (newMovies, st') := search_and_add_from_tmdb env.state (env.tmdbSearch query)
        (afterKeyword ++ newMovies, st')
      else (afterKeyword, env.state)
    (dedupLimit limit afterTmdb, st',
     Phase.semantic ::
       ((if runKeyword then [Phase.keyword] else []) ++
        (if runTmdb then [Phase.tmdbFallback] else []))))

/-- Index loading in `SearchOrchestrator.__init__`: when the index file exists
it is read and the metadata file is then opened unguardedly (a missing
metadata file raises `FileNotFoundError`); when the index file is missing the
store silently starts empty.  `indexFile` is the vector count of the index
file when present; `metaFile` the metadata list when present. -/
def orchestrator_load_index (indexFile : Option Nat) (metaFile : Option (List Meta)) :
    Except PyErr (Option Nat × List Meta) :=
  match indexFile with
  | some n =>
    match metaFile with
    | some meta => .ok (some n, meta)
    | none => .error .fileNotFound
  | none => .ok (none, [])

end SearchOrchestrator

/-! ## faiss_ops.py -/

namespace FaissOps

/-- `faiss_ops.add_movie_to_faiss`: look the movie up in the record store
(absent movie: no change, `False`); require both backing files (a missing
index file returns `False`, a missing metadata file raises and the exception
handler returns `False` — `files` is `some` only when both load); skip when
the identifier is already present in the metadata (`True`, no change);
otherwise append one vector and one metadata entry (without popularity key)
and persist.  Returns the updated files plus the success flag. -/
def add_movie_to_faiss (movies : List MovieRow) (files : Option (Nat × List Meta))
    (tmdbId : Nat) : Option (Nat × List Meta) × Bool :=
  match movies.find? (fun r => r.tmdbId == tmdbId) with
  | none => (files, false)
  | some movie =>
    match files with
    | none => (files, false)
    | some (n, meta) =>
      if meta.any (fun m => m.tmdbId == tmdbId) then
        (some (n, meta), true)
      else
        (some (n + 1, meta ++ [⟨tmdbId, movie.title, movie.year, none⟩]), true)

end FaissOps

/-! ## qa_service.py -/

namespace QaService

open PyStr

/-- A conversation turn `{role, content}`. -/
structure Msg : Type where
  role : Str
  content : Str

/-- The intent taxonomy of `answer_question`. -/
inductive IntentCategory : Type where
  | director | cast | actorFilmography | directorFilmography | plot | year | boxOffice
deriving DecidableEq

/-- Shorthand: literal pattern piece. -/
def L (s : String) : Rx := Rx.lit s.data

/-- Shorthand: alternation of literal words. -/
def A (ss : List String) : Rx := Rx.words (ss.map String.data)

/-- Regex `(?:films?|movies?)`. -/
def filmsOrMovies : Rx :=
  Rx.alt (Rx.seqAll [L "film", Rx.opt (L "s")]) (Rx.seqAll [L "movie", Rx.opt (L "s")])

/-- Regex `(?:\'s| is)`. -/
def aposSOrIs : Rx := Rx.alt (Rx.lit [apos, 's']) (L " is")

/-- The `director_patterns` list of `answer_question`. -/
def director_patterns : List Rx :=
  [Rx.seqAll [A ["who", "siapa"], Rx.ws,
     Rx.alt (A ["directed", "made", "sutradara"]) (Rx.seqAll [L "filmmaker", Rx.ws, L "of"]),
     Rx.ws, Rx.anyPlus, Rx.eoq],
   Rx.seqAll [A ["director", "sutradara"], Rx.ws, A ["of", "dari"], Rx.ws, Rx.anyPlus, Rx.eoq],
   Rx.seqAll [L "who", aposSOrIs, Rx.ws, L "the", Rx.ws, L "director", Rx.ws,
     A ["of", "for"], Rx.ws, Rx.anyPlus, Rx.eoq],
   Rx.seqAll [L "siapa", Rx.ws, L "yang", Rx.ws, A ["menyutradarai", "mengarahkan"],
     Rx.ws, Rx.anyPlus, Rx.eoq],
   Rx.seqAll [L "who", Rx.ws, L "made", Rx.ws, Rx.anyPlus, Rx.eoq]]

/-- The `cast_patterns` list of `answer_question`. -/
def cast_patterns : List Rx :=
  [Rx.seqAll [A ["who", "siapa"], Rx.ws,
     Rx.opt (Rx.alt (Rx.seqAll [L "are", Rx.ws, L "the", Rx.ws])
       (Rx.alt (Rx.seqAll [L "is", Rx.ws, L "the", Rx.ws]) (Rx.seqAll [L "pemain", Rx.ws]))),
     Rx.alt (Rx.seqAll [L "actor", Rx.opt (L "s")])
       (Rx.alt (L "cast") (Rx.alt (Rx.seqAll [L "star", Rx.opt (L "s")]) (L "pemain"))),
     Rx.ws, A ["in", "of", "from", "for"], Rx.ws, Rx.anyPlus, Rx.eoq],
   Rx.seqAll [L "cast", Rx.ws, A ["of", "from", "in", "for"], Rx.ws, Rx.anyPlus, Rx.eoq],
   Rx.seqAll [Rx.alt (Rx.seqAll [L "actor", Rx.opt (L "s")])
       (Rx.alt (L "pemain") (Rx.seqAll [L "star", Rx.opt (L "s")])),
     Rx.ws, A ["in", "of", "from", "for"], Rx.ws, Rx.anyPlus, Rx.eoq],
   Rx.seqAll [L "siapa", Rx.ws, Rx.opt (Rx.seqAll [L "yang", Rx.ws]), L "main", Rx.ws,
     A ["di", "dalam"], Rx.ws, Rx.anyPlus, Rx.eoq],
   Rx.seqAll [L "who", Rx.ws,
     Rx.alt (Rx.seqAll [L "starred", Rx.ws, L "in"])
       (Rx.alt (Rx.seqAll [L "acted", Rx.ws, L "in"])
         (Rx.alt (Rx.seqAll [L "featured", Rx.ws, L "in"]) (Rx.seqAll [L "plays", Rx.ws, L "in"]))),
     Rx.ws, Rx.anyPlus, Rx.eoq]]

/-- The `plot_patterns` list of `answer_question`. -/
def plot_patterns : List Rx :=
  [Rx.seqAll [L "tell", Rx.ws, L "me", Rx.ws, L "about", Rx.ws, Rx.anyPlus, Rx.eoq],
   Rx.seqAll [A ["what", "apa"], Rx.ws, A ["is", "about"], Rx.ws, Rx.anyPlus, Rx.ws,
     L "about", Rx.eoq],
   Rx.seqAll [A ["plot", "story", "cerita", "synopsis", "storyline"], Rx.ws, A ["of", "from"],
     Rx.ws, Rx.anyPlus, Rx.eoq],
   Rx.seqAll [L "what", aposSOrIs, Rx.ws, Rx.anyPlus, Rx.ws, L "about", Rx.eoq],
   Rx.seqAll [L "describe", Rx.ws, Rx.anyPlus, Rx.eoq],
   Rx.seqAll [L "summary", Rx.ws, A ["of", "for"], Rx.ws, Rx.anyPlus, Rx.eoq]]

/-- The `year_patterns` list of `answer_question`. -/
def year_patterns : List Rx :=
  [Rx.seqAll [L "when", Rx.ws, A ["was", "did"], Rx.ws, Rx.anyPlus, Rx.ws,
     Rx.alt (L "released") (Rx.alt (Rx.seqAll [L "come", Rx.ws, L "out"]) (L "premiere")),
     Rx.eoq],
   Rx.seqAll [L "what", Rx.ws, L "year", Rx.ws, A ["did", "was"], Rx.ws, Rx.anyPlus, Rx.ws,
     Rx.alt (L "released") (Rx.alt (Rx.seqAll [L "come", Rx.ws, L "out"]) (L "made")),
     Rx.eoq],
   Rx.seqAll [L "when", Rx.ws, A ["did", "was"], Rx.ws, Rx.anyPlus, Rx.ws,
     Rx.alt (L "release") (Rx.seqAll [L "come", Rx.ws, L "out"]), Rx.eoq],
   Rx.seqAll [L "release", Rx.ws, A ["date", "year"], Rx.ws, A ["of", "for"], Rx.ws,
     Rx.anyPlus, Rx.eoq],
   Rx.seqAll [L "kapan", Rx.ws, Rx.anyPlus, Rx.ws, L "rilis", Rx.eoq]]

/-- The `box_office_patterns` list of `answer_question`. -/
def box_office_patterns : List Rx :=
  [Rx.seqAll [Rx.alt (Rx.seqAll [L "how", Rx.ws, L "much"]) (L "berapa"), Rx.ws,
     A ["did", "money", "revenue"], Rx.ws, Rx.anyPlus, Rx.ws, A ["earn", "make", "gross"],
     Rx.eoq],
   Rx.seqAll [Rx.alt (Rx.seqAll [L "box", Rx.ws, L "office"]) (Rx.alt (L "earnings") (L "revenue")),
     Rx.ws, A ["of", "for", "from"], Rx.ws, Rx.anyPlus, Rx.eoq]]

/-- The `actor_filmography_patterns` list of `answer_question`. -/
def actor_filmography_patterns : List Rx :=
  [Rx.seqAll [L "what", Rx.ws, Rx.opt (Rx.seqAll [L "other", Rx.ws]), L "movies", Rx.ws,
     A ["does", "did"], Rx.ws, Rx.anyPlus, Rx.ws,
     Rx.alt (Rx.seqAll [L "star", Rx.ws, L "in"])
       (Rx.alt (Rx.seqAll [L "act", Rx.ws, L "in"])
         (Rx.alt (Rx.seqAll [L "appear", Rx.ws, L "in"]) (Rx.seqAll [L "play", Rx.ws, L "in"]))),
     Rx.eoq],
   Rx.seqAll [filmsOrMovies, Rx.ws, A ["by", "with", "starring", "featuring"], Rx.ws,
     Rx.anyPlus, Rx.eoq],
   Rx.seqAll [A ["show", "list", "tell"], Rx.ws, Rx.opt (Rx.seqAll [L "me", Rx.ws]),
     filmsOrMovies, Rx.ws, A ["with", "starring", "by"], Rx.ws, Rx.anyPlus, Rx.eoq],
   Rx.seqAll [Rx.anyPlus, Rx.ws, A ["filmography", "movies", "films"], Rx.eoq],
   Rx.seqAll [L "what", Rx.ws, A ["has", "did"], Rx.ws, Rx.anyPlus, Rx.ws,
     A ["starred", "acted", "played"], Rx.ws, L "in", Rx.eoq]]

/-- The `director_filmography_patterns` list of `answer_question`. -/
def director_filmography_patterns : List Rx :=
  [Rx.seqAll [L "what", Rx.ws, A ["movies", "films"], Rx.ws, A ["did", "has"], Rx.ws,
     Rx.anyPlus, Rx.ws, A ["direct", "make"], Rx.eoq],
   Rx.seqAll [filmsOrMovies, Rx.ws,
     Rx.alt (Rx.seqAll [L "directed", Rx.ws, L "by"])
       (Rx.alt (Rx.seqAll [L "made", Rx.ws, L "by"]) (L "from")),
     Rx.ws, Rx.anyPlus, Rx.eoq],
   Rx.seqAll [Rx.anyPlus, Rx.ws, A ["directed", "made"], Rx.ws, L "what", Rx.ws,
     filmsOrMovies, Rx.eoq],
   Rx.seqAll [L "list", Rx.ws, Rx.opt (Rx.seqAll [L "of", Rx.ws]), filmsOrMovies, Rx.ws,
     A ["by", "from"], Rx.ws, L "director", Rx.ws, Rx.anyPlus, Rx.eoq]]

/-- The pattern list tried for each intent category. -/
def patternsFor : IntentCategory → List Rx
  | .director => director_patterns
  | .cast => cast_patterns
  | .actorFilmography => actor_filmography_patterns
  | .directorFilmography => director_filmography_patterns
  | .plot => plot_patterns
  | .year => year_patterns
  | .boxOffice => box_office_patterns

/-- Does any pattern of the category match the (lower-cased, stripped)
question? -/
def category_matches (c : IntentCategory) (ql : Str) : Bool :=
  (patternsFor c).any (fun p => Rx.search p ql)

/-- The dispatch cascade of `answer_question`: the categories are tried in
source order — director, cast, actor filmography, director filmography, plot,
year, box office — and the first category with a matching pattern determines
the handler; `none` falls through to the hybrid-search free-text fallback. -/
def answer_question_intent (question : Str) : Option IntentCategory :=
  let ql := strip (toLower question)
  if category_matches .director ql then some .director
  else if category_matches .cast ql then some .cast
  else if category_matches .actorFilmography ql then some .actorFilmography
  else if category_matches .directorFilmography ql then some .directorFilmography
  else if category_matches .plot ql then some .plot
  else if category_matches .year ql then some .year
  else if category_matches .boxOffice ql then some .boxOffice
  else none

/-- Character class `[A-Za-z0-9\s:,\'-]` of the movie-title capture in the
history-extraction pattern. -/
def movieTitleClassChar (c : Char) : Bool :=
  isLetterAZ c || isDigitChar c || isSpace c ||
  c == ':' || c == ',' || c == apos || c == '-'

/-- Regex `\s*\((\d{4})\)` at the start of the input: skip spaces, then a
parenthesized four-digit year.  Returns the year and the remainder. -/
def yearSuffix (cs : Str) : Option (Nat × Str) :=
  match cs.dropWhile isSpace with
  | '(' :: d1 :: d2 :: d3 :: d4 :: ')' :: tail =>
    if isDigitChar d1 && isDigitChar d2 && isDigitChar d3 && isDigitChar d4 then
      (parseNat [d1, d2, d3, d4]).map (fun y => (y, tail))
    else none
  | _ => none

/-- Lazy extension of the title capture `[A-Za-z0-9\s:,\'-]+?` after its first
character: stop at the earliest point where `\s*\((\d{4})\)` follows. -/
def titleScan (titleRev : Str) (rest : Str) : Option (Str × Nat × Str) :=
  go rest.length titleRev rest
where
  go : Nat → Str → Str → Option (Str × Nat × Str)
    | fuel, titleRev, rest =>
      match yearSuffix rest with
      | some (y, tail) => some (titleRev.reverse, y, tail)
      | none =>
        match fuel, rest with
        | fuel' + 1, c :: rest' =>
          if movieTitleClassChar c then go fuel' (c :: titleRev) rest' else none
        | _, _ => none

/-- One attempt of the history movie pattern
`(?:of|for|in)\s+([A-Z][A-Za-z0-9\s:,\'-]+?)\s*\((\d{4})\)` anchored at the
current position: returns the raw captured title, the year, and the remainder
after the whole match. -/
def tryMovieMatchAt (cs : Str) : Option (Str × Nat × Str) :=
  tryKws [("of".data), ("for".data), ("in".data)]
where
  tryAfterKw (afterKw : Str) : Option (Str × Nat × Str) :=
    let sp := afterKw.takeWhile isSpace
    if sp.isEmpty then none
    else
      match afterKw.drop sp.length with
      | c0 :: rest0 =>
        if isUpperAZ c0 then
          match rest0 with
          | c1 :: rest1 =>
            if movieTitleClassChar c1 then titleScan [c1, c0] rest1 else none
          | [] => none
        else none
      | [] => none
  tryKws : List Str → Option (Str × Nat × Str)
    | [] => none
    | kw :: kws =>
      if kw.isPrefixOf cs then
        match tryAfterKw (cs.drop kw.length) with
        | some r => some r
        | none => tryKws kws
      else tryKws kws

/-- `re.findall` of the history movie pattern: leftmost non-overlapping
matches, scanning left to right. -/
def findMovieMentions (content : Str) : List (Str × Nat) :=
  go content.length content
where
  go : Nat → Str → List (Str × Nat)
    | 0, _ => []
    | _ + 1, [] => []
    | fuel + 1, c :: rest =>
      match tryMovieMatchAt (c :: rest) with
      | some (title, year, remainder) => (title, year) :: go fuel remainder
      | none => go fuel rest

/-- The per-match cleanup of extracted movie titles in
`answer_question_with_context`: strip, collapse interior whitespace, drop
trailing punctuation, keep titles longer than 2 characters. -/
def cleanMovieMention (raw : Str × Nat) : Option (Str × Nat) :=
  let title := rstripSet (":.,;!?".data) (collapseSpaces (strip raw.1))
  if 2 < title.length then some (title, raw.2) else none

/-- Movies extracted from one assistant turn. -/
def moviesFromContent (content : Str) : List (Str × Nat) :=
  (findMovieMentions content).filterMap cleanMovieMention

/-- Regex `Cast of [^:]+:\s*([^.]+)` via `re.search`: the captured actor-list
segment of a cast answer.  (A capture consisting only of whitespace is
returned as `none`: every name derived from it is discarded downstream by the
length filter, so the two readings agree on the resolver's output.) -/
def castCaptureAt (cs : Str) : Option Str :=
  if ("Cast of ".data).isPrefixOf cs then
    let rest := cs.drop 8
    let upToColon := rest.takeWhile (fun c => c != ':')
    if upToColon.isEmpty then none
    else
      match rest.drop upToColon.length with
      | ':' :: rest2 =>
        let rest3 := rest2.dropWhile isSpace
        let cap := rest3.takeWhile (fun c => c != '.')
        if cap.isEmpty then none else some cap
      | _ => none
  else none

/-- Leftmost `re.search` of the cast pattern over the content. -/
def castCapture : Str → Option Str
  | [] => none
  | c :: rest =>
    match castCaptureAt (c :: rest) with
    | some cap => some cap
    | none => castCapture rest

/-- Actors extracted from one assistant turn: split the capture on commas,
strip, drop trailing dots, take the first five, keep names longer than 2
characters after removing any parenthesized suffix. -/
def actorsFromContent (content : Str) : List Str :=
  match castCapture content with
  | none => []
  | some cap =>
    ((splitComma cap).map (fun name => rstripSet (".".data) (strip name))).take 5
      |>.filterMap (fun name =>
        if !name.isEmpty && 2 < name.length then
          let clean := strip (stripParen name)
          if clean.isEmpty then none else some clean
        else none)
where
  /-- Regex substitution `re.sub(r'\s*\([^)]+\)', '', name)`: remove any
  parenthesized group together with the spaces before it. -/
  stripParen (s : Str) : Str := goStrip s.length s
  goStrip : Nat → Str → Str
    | 0, rest => rest
    | _ + 1, [] => []
    | fuel + 1, c :: rest =>
      match parenAt (c :: rest) with
      | some remainder => goStrip fuel remainder
      | none => c :: goStrip fuel rest
  /-- Match `\s*\([^)]+\)` at the current position. -/
  parenAt (cs : Str) : Option Str :=
    let sp := cs.takeWhile isSpace
    match cs.drop sp.length with
    | '(' :: rest =>
      let inner := rest.takeWhile (fun c => c != ')')
      if inner.isEmpty then none
      else
        match rest.drop inner.length with
        | ')' :: tail => some tail
        | _ => none
    | _ => none

/-- Character class `[A-Za-z\s.]` of the director capture. -/
def directorClassChar (c : Char) : Bool :=
  isLetterAZ c || isSpace c || c == '.'

/-- Regex `\s+directed\s+` at the start of the input. -/
def wsDirectedAt (cs : Str) : Bool :=
  let sp := cs.takeWhile isSpace
  if sp.isEmpty then false
  else
    let rest := cs.drop sp.length
    ("directed".data).isPrefixOf rest &&
      !((rest.drop 8).takeWhile isSpace).isEmpty

/-- Lazy extension of the director capture `[A-Za-z\s.]+?` after its first
character. -/
def directorScan (accRev : Str) (rest : Str) : Option Str :=
  go rest.length accRev rest
where
  go : Nat → Str → Str → Option Str
    | fuel, accRev, rest =>
      if wsDirectedAt rest then some accRev.reverse
      else
        match fuel, rest with
        | fuel' + 1, c :: rest' =>
          if directorClassChar c then go fuel' (c :: accRev) rest' else none
        | _, _ => none

/-- Regex `^([A-Z][A-Za-z\s.]+?)\s+directed\s+` via `re.search` (anchored at
the start), followed by the strip and length-filter of the source. -/
def directorFromContent (content : Str) : Option Str :=
  match content with
  | c0 :: c1 :: rest =>
    if isUpperAZ c0 && directorClassChar c1 then
      match directorScan [c1, c0] rest with
      | some name =>
        let name := strip name
        if !name.isEmpty && 2 < name.length then some name else none
      | none => none
    else none
  | _ => none

/-- Keep-last deduplication (iterate the reversed list keeping first
occurrences of each key, then reverse back). -/
def dedupKeepLast {α κ : Type} [BEq κ] (key : α → κ) (xs : List α) : List α :=
  (go [] xs.reverse).reverse
where
  go : List κ → List α → List α
    | _, [] => []
    | seen, x :: rest =>
      if seen.contains (key x) then go seen rest
      else x :: go (key x :: seen) rest

/-- The pronoun/article list of the new-question check. -/
def newQuestionPronouns : List Str :=
  [("it".data), ("that".data), ("this".data), ("the".data), ("a".data), ("an".data)]

/-- Search for `kw1\s+kw2\s+(\w+)` (the shape of all four new-question
patterns): leftmost position where some first-slot keyword, whitespace, some
second-slot keyword, whitespace and a word-character run follow; returns the
captured word. -/
def searchCapWord (firstKws secondKws : List Str) : Str → Option Str
  | [] => none
  | c :: rest =>
    match tryAt firstKws secondKws (c :: rest) with
    | some w => some w
    | none => searchCapWord firstKws secondKws rest
where
  afterKw (kws : List Str) (cs : Str) : Option Str :=
    match kws with
    | [] => none
    | kw :: more =>
      if kw.isPrefixOf cs then some (cs.drop kw.length) else afterKw more cs
  tryAt (firstKws secondKws : List Str) (cs : Str) : Option Str := do
    let rest1 ← afterKw firstKws cs
    let sp1 := rest1.takeWhile isSpace
    if sp1.isEmpty then none
    else
      let rest2 ← afterKw secondKws (rest1.drop sp1.length)
      let sp2 := rest2.takeWhile isSpace
      if sp2.isEmpty then none
      else
        let word := (rest2.drop sp2.length).takeWhile isWordChar
        if word.isEmpty then none else some word

/-- The four `new_question_patterns` of `answer_question_with_context`,
returning the captured word of each matching pattern in order. -/
def newQuestionCaptures (ql : Str) : List Str :=
  [searchCapWord [("cast".data)] [("of".data), ("in".data), ("from".data)] ql,
   searchCapWord [("who".data), ("siapa".data)]
     [("directed".data), ("made".data), ("sutradara".data)] ql,
   searchCapWord [("plot".data), ("story".data), ("cerita".data)]
     [("of".data), ("from".data)] ql,
   searchCapWord [("what".data), ("apa".data)] [("is".data), ("about".data)] ql].reduceOption

/-- The new-question flag: some pattern matched with a captured word that is
not a pronoun/article (a pronoun capture does not break the loop). -/
def is_new_question (ql : Str) : Bool :=
  (newQuestionCaptures ql).any (fun w => !newQuestionPronouns.contains w)

/-- The `actor_filmography_keywords` list. -/
def actor_filmography_keywords : List Str :=
  [("other movies".data), ("what movies".data), ("what films".data), ("what else".data),
   ("starred in".data), ("acted in".data), ("appeared in".data), ("played in".data),
   ("filmography".data), ("film lain".data), ("movie lain".data)]

/-- The `director_filmography_keywords` list. -/
def director_filmography_keywords : List Str :=
  [("other films by".data), ("what films did".data), ("what movies did".data),
   ("directed what".data), ("made what".data), ("filmography".data)]

/-- The `pure_contextual_keywords` list. -/
def pure_contextual_keywords : List Str :=
  [("that film".data), ("that movie".data), ("the film".data), ("the movie".data),
   ("this film".data), ("this movie".data), ("it".data), ("about it".data),
   ("the cast".data), ("the director".data), ("the plot".data), ("the story".data),
   ("when was it released".data), ("what genre is it".data), ("who acted in it".data),
   ("film itu".data), ("siapa pemainnya".data), ("siapa sutradaranya".data)]

/-- The contextual-keyword check of the movie-context branch. -/
def has_contextual_keyword (question : Str) : Bool :=
  pure_contextual_keywords.any (fun kw => contains (toLower question) kw)

/-- The generic pronoun-replacement loop of the movie-context branch: the
first keyword of the fixed list contained in the lower-cased question is
replaced (at its position in the original-case question) by the title. -/
def genericReplace (question ql title : Str) : Str :=
  go [("that film".data), ("that movie".data), ("this film".data), ("this movie".data),
      ("it".data)]
where
  go : List Str → Str
    | [] => question
    | kw :: kws =>
      if contains ql kw then
        let idx := (findSub ql kw).toNat
        question.take idx ++ title ++ question.drop (idx + kw.length)
      else go kws

/-- `answer_question_with_context`, up to the point where control passes to
`answer_question`: returns the (possibly rewritten) question that is
forwarded.  Extraction of movies, actors and directors from assistant turns,
the new-question override, the two filmography context branches, and the
movie-context branch with smart reconstruction are embedded from the source. -/
def answer_question_with_context_rewrite (question : Str) (history : List Msg) : Str :=
  let assistantTurns := (history.filter (fun m => m.role == ("assistant".data))).map Msg.content
  let mentionedMovies := dedupKeepLast (fun m => (toLower m.1, m.2))
    (assistantTurns.flatMap moviesFromContent)
  let mentionedActors := dedupKeepLast toLower
    (assistantTurns.flatMap actorsFromContent)
  let mentionedDirectors := dedupKeepLast toLower
    (assistantTurns.filterMap directorFromContent)
  let lastMovie := mentionedMovies.getLast?
  let lastActor := mentionedActors.getLast?
  let lastDirector := mentionedDirectors.getLast?
  let ql := toLower question
  let isNew := is_new_question ql
  let isActorFilm := actor_filmography_keywords.any (fun kw => contains ql kw)
  let isDirectorFilm := director_filmography_keywords.any (fun kw => contains ql kw)
  match isActorFilm, lastActor, isNew with
  | true, some actor, false =>
    ("What movies did ".data) ++ actor ++ (" star in".data)
  | _, _, _ =>
    match isDirectorFilm, lastDirector, isNew with
    | true, some director, false =>
      ("What movies did ".data) ++ director ++ (" direct".data)
    | _, _, _ =>
      match has_contextual_keyword question, isNew, lastMovie with
      | true, false, some movie =>
        let title := movie.1
        if contains ql ("cast".data) then
          ("Who is the cast of ".data) ++ title
        else if contains ql ("director".data) || contains ql ("sutradara".data) then
          ("Who directed ".data) ++ title
        else if contains ql ("plot".data) || contains ql ("story".data) ||
                contains ql ("about".data) then
          ("What is the plot of ".data) ++ title
        else if contains ql ("year".data) || contains ql ("when".data) ||
                contains ql ("released".data) then
          ("When was ".data) ++ title ++ (" released".data)
        else
          genericReplace question ql title
      | _, _, _ => question

end QaService

/-! ## Concrete data for the C1 instantiations -/

namespace C1Data

/-- A record store with two movies. -/
def rows : List MovieRow :=
  [⟨1, ("Movie A".data), none, some 2000, some 5⟩,
   ⟨2, ("Movie B".data), none, some 2001, some 6⟩]

/-- The matching metadata list of the loaded index. -/
def meta : List Meta :=
  [⟨1, ("Movie A".data), some 2000, some 5⟩,
   ⟨2, ("Movie B".data), some 2001, some 6⟩]

/-- A concrete environment whose index search returns two hits that both
enrich successfully from the record store. -/
def env : SearchOrchestrator.HybridEnv :=
  ⟨⟨rows, true, 2, meta⟩, fun _ _ => [((0 : Int), 1), ((1 : Int), 2)], fun _ => []⟩

/-- The two enriched semantic results of `env` for any query without
enhancement effects. -/
def enriched : List ResultMovie :=
  [⟨1, ("Movie A".data), none, some 2000, 5, some Source.database⟩,
   ⟨2, ("Movie B".data), none, some 2001, 6, some Source.database⟩]

end C1Data

/-- Number of record-store rows carrying the given external identifier. -/
def dbRowsFor (movies : List MovieRow) (tmdbId : Nat) : Nat :=
  (movies.filter (fun r => r.tmdbId == tmdbId)).length

/-- Number of metadata entries carrying the given external identifier. -/
def metaEntriesFor (meta : List Meta) (tmdbId : Nat) : Nat :=
  (meta.filter (fun m => m.tmdbId == tmdbId)).length

/-- Does the release date of a TMDb candidate parse (`int(release_date[:4])`
succeeds or the date is absent)?  When false, `_insert_movie_to_db` raises
internally and returns `None`. -/
def releaseDateParses (m : TmdbMovie) : Bool :=
  m.releaseDate.isEmpty || (PyStr.parseNat (m.releaseDate.take 4)).isSome

/-! ## Theorems -/

section Theorems

open SearchOrchestrator QaService PyStr

/-- C9: vague-question classification is by substring containment, not word
boundary: every question whose lower-cased text contains the two-letter
sequence "it" anywhere is classified vague by `_is_vague_question`, and the
contextual-keyword check of `answer_question_with_context` likewise fires. -/
theorem C9_vague_by_substring (q : Str)
    (h : PyStr.contains (toLower q) ("it".data) = true) :
    is_vague_question q = true ∧ has_contextual_keyword q = true := by
  constructor
  · unfold is_vague_question
    exact List.any_eq_true.mpr ⟨("it".data), by decide, h⟩
  · unfold has_contextual_keyword
    exact List.any_eq_true.mpr ⟨("it".data), by decide, h⟩

/-- C9 witness: "Titanic" contains "it" inside the word and is classified
vague with the contextual keyword firing. -/
theorem C9_witness :
    PyStr.contains (toLower ("Titanic".data)) ("it".data) = true ∧
    is_vague_question ("Titanic".data) = true ∧
    has_contextual_keyword ("Titanic".data) = true :=
  ⟨by decide, C9_vague_by_substring ("Titanic".data) (by decide)⟩

/-- C10: when the metadata list is non-empty, the guard
`idx < len(self.metadata)` of `_search_faiss` accepts the FAISS padding
ordinal `-1`, and each such padding slot contributes a result built from the
last metadata element rather than being skipped. -/
theorem C10_padding_uses_last_entry (meta : List Meta) (d : ℚ)
    (rest : List (Int × ℚ)) (m : Meta) (hlast : meta.getLast? = some m) :
    ((-1 : Int) < (meta.length : Int)) ∧
    search_faiss_loop meta (((-1 : Int), d) :: rest) =
      (search_faiss_loop meta rest).map (fun rs => mkFaissResult m d :: rs) := by
  have hne : meta ≠ [] := by
    intro h
    rw [h] at hlast
    simp [List.getLast?] at hlast
  have hlen : 0 < meta.length := List.length_pos.mpr hne
  have hguard : (-1 : Int) < (meta.length : Int) := by omega
  refine ⟨hguard, ?_⟩
  have hget : pyListGet meta (-1) = some m := by
    unfold pyListGet
    rw [if_neg (by omega)]
    simp only []
    rw [if_pos (by omega)]
    have htn : ((meta.length : Int) + (-1)).toNat = meta.length - 1 := by omega
    rw [htn, ← List.getLast?_eq_getElem?, hlast]
  simp only [search_faiss_loop, if_pos hguard, hget]

/-- C10 witness: a two-entry metadata list and one padding hit produce the
second (last) entry. -/
theorem C10_witness :
    (([⟨1, ("A".data), none, none⟩, ⟨2, ("B".data), none, none⟩] : List Meta).getLast? =
      some ⟨2, ("B".data), none, none⟩) ∧
    (((-1 : Int) < (([⟨1, ("A".data), none, none⟩, ⟨2, ("B".data), none, none⟩] : List Meta).length : Int)) ∧
     search_faiss_loop [⟨1, ("A".data), none, none⟩, ⟨2, ("B".data), none, none⟩] [((-1 : Int), 3)] =
       (search_faiss_loop [⟨1, ("A".data), none, none⟩, ⟨2, ("B".data), none, none⟩] []).map
         (fun rs => mkFaissResult ⟨2, ("B".data), none, none⟩ 3 :: rs)) :=
  ⟨by decide,
   C10_padding_uses_last_entry [⟨1, ("A".data), none, none⟩, ⟨2, ("B".data), none, none⟩]
     3 [] ⟨2, ("B".data), none, none⟩ (by decide)⟩

/-- C2 counterexample: `_search_faiss` performs no distance-to-similarity
conversion and applies no 0.4 threshold: a candidate at distance 2 — whose
would-be similarity 1/(1+2) is below 0.4 — appears in the semantic output
carrying the raw distance. -/
theorem C2_counterexample :
    search_faiss_loop [⟨7, ("A".data), some 2000, some 1⟩] [((0 : Int), 2)] =
      Except.ok [⟨7, ("A".data), some 2000, some 1, 2, Source.semantic⟩] ∧
    (1 : ℚ) / (1 + 2) < 2 / 5 := by
  constructor
  · rfl
  · norm_num

/-- C2 amended: the semantic phase attaches the raw squared-Euclidean
distance to each candidate and filters nothing: every hit whose ordinal
passes the bounds guard contributes a result, whatever its distance. -/
theorem C2_amended_no_threshold (meta : List Meta) (i : Nat) (d : ℚ)
    (rest : List (Int × ℚ)) (h : i < meta.length) :
    search_faiss_loop meta (((i : Int), d) :: rest) =
      (search_faiss_loop meta rest).map (fun rs => mkFaissResult (meta.get ⟨i, h⟩) d :: rs) ∧
    (mkFaissResult (meta.get ⟨i, h⟩) d).distance = d := by
  have hguard : ((i : Int)) < (meta.length : Int) := by exact_mod_cast h
  have hget : pyListGet meta (i : Int) = some (meta.get ⟨i, h⟩) := by
    unfold pyListGet
    rw [if_pos (by omega)]
    simp [List.getElem?_eq_getElem h]
  refine ⟨?_, rfl⟩
  simp only [search_faiss_loop, if_pos hguard, hget]

/-- C2 amended witness: an in-range hit at distance 2 appears with its raw
distance. -/
theorem C2_witness :
    (0 < ([⟨7, ("A".data), some 2000, some 1⟩] : List Meta).length) ∧
    (search_faiss_loop [⟨7, ("A".data), some 2000, some 1⟩] [((0 : Int), 2)] =
       (search_faiss_loop [⟨7, ("A".data), some 2000, some 1⟩] []).map
         (fun rs => mkFaissResult (([⟨7, ("A".data), some 2000, some 1⟩] : List Meta).get
           ⟨0, by decide⟩) 2 :: rs) ∧
     (mkFaissResult (([⟨7, ("A".data), some 2000, some 1⟩] : List Meta).get ⟨0, by decide⟩) 2).distance = 2) :=
  ⟨by decide, C2_amended_no_threshold [⟨7, ("A".data), some 2000, some 1⟩] 0 2 [] (by decide)⟩

/-- C7: both vector-index append paths preserve the alignment invariant:
after `_add_to_faiss_index` (and after a successful load in
`faiss_ops.add_movie_to_faiss`) the vector count equals the metadata length
whenever it did before. -/
theorem C7_append_preserves_alignment :
    (∀ (st : OrchState) (movie : ResultMovie), st.ntotal = st.metadata.length →
      (add_to_faiss_index st movie).ntotal = (add_to_faiss_index st movie).metadata.length) ∧
    (∀ (movies : List MovieRow) (n : Nat) (meta : List Meta) (tmdbId : Nat)
       (n' : Nat) (meta' : List Meta), n = meta.length →
      (FaissOps.add_movie_to_faiss movies (some (n, meta)) tmdbId).1 = some (n', meta') →
      n' = meta'.length) := by
  constructor
  · intro st movie h
    unfold add_to_faiss_index
    cases hidx : st.hasIndex <;> simp [hidx, h]
  · intro movies n meta tmdbId n' meta' h hout
    unfold FaissOps.add_movie_to_faiss at hout
    cases hfind : movies.find? (fun r => r.tmdbId == tmdbId) <;> rw [hfind] at hout
    · simp at hout
      obtain ⟨h1, h2⟩ := hout
      subst h1
      subst h2
      exact h
    · cases hin : meta.any (fun m => m.tmdbId == tmdbId) <;> simp [hin] at hout
      · obtain ⟨h1, h2⟩ := hout
        subst h1
        subst h2
        simp [h]
      · obtain ⟨h1, h2⟩ := hout
        subst h1
        subst h2
        exact h

/-- C7 witness: appending to an aligned empty store yields an aligned store,
on both paths. -/
theorem C7_witness :
    ((⟨[], true, 0, []⟩ : OrchState).ntotal = (⟨[], true, 0, []⟩ : OrchState).metadata.length) ∧
    ((add_to_faiss_index ⟨[], true, 0, []⟩ ⟨1, ("A".data), none, none, 0, none⟩).ntotal =
       (add_to_faiss_index ⟨[], true, 0, []⟩ ⟨1, ("A".data), none, none, 0, none⟩).metadata.length) ∧
    ((FaissOps.add_movie_to_faiss [⟨1, ("A".data), none, none, none⟩] (some (0, [])) 1).1 =
       some (1, [⟨1, ("A".data), none, none⟩]) ∧
     (1 : Nat) = ([⟨1, ("A".data), none, none⟩] : List Meta).length) :=
  ⟨rfl,
   C7_append_preserves_alignment.1 ⟨[], true, 0, []⟩ ⟨1, ("A".data), none, none, 0, none⟩ rfl,
   by decide,
   C7_append_preserves_alignment.2 [⟨1, ("A".data), none, none, none⟩] 0 [] 1 1
     [⟨1, ("A".data), none, none⟩] rfl (by decide)⟩

/-- C8 counterexample: when the metadata file exists but the index file does
not, startup loading does not fail — it silently starts with an empty store,
contradicting the claim that either lone file fails loudly. -/
theorem C8_counterexample :
    orchestrator_load_index none (some [⟨1, ("A".data), none, none⟩]) =
      Except.ok (none, []) := rfl

/-- C8 amended: startup loading fails loudly exactly when the index file
exists and the metadata file does not; a metadata file without an index file
silently starts the store empty. -/
theorem C8_amended_split_state :
    (∀ (n : Nat), orchestrator_load_index (some n) none = Except.error PyErr.fileNotFound) ∧
    (∀ (meta : List Meta), orchestrator_load_index none (some meta) = Except.ok (none, [])) ∧
    (∀ (indexFile : Option Nat) (metaFile : Option (List Meta)),
      (orchestrator_load_index indexFile metaFile = Except.error PyErr.fileNotFound) ↔
        (indexFile.isSome = true ∧ metaFile.isSome = false)) := by
  refine ⟨fun n => rfl, fun meta => rfl, ?_⟩
  intro indexFile metaFile
  cases indexFile <;> cases metaFile <;> simp [orchestrator_load_index]

/-- C3 counterexample: the record store holds "Toy Story" (popularity 50) and
"Toy Story 3" (popularity 90); the query "Toy Story" equals the first title
case-insensitively, yet the keyword search ranks the more popular substring
match "Toy Story 3" first — exact title equality confers no precedence. -/
theorem C3_counterexample :
    ((⟨1, ("Toy Story".data), some ("toys come alive".data), some 1995, some 50⟩ : MovieRow) ∈
      ([⟨1, ("Toy Story".data), some ("toys come alive".data), some 1995, some 50⟩,
        ⟨3, ("Toy Story 3".data), some ("toys again".data), some 2010, some 90⟩] : List MovieRow)) ∧
    toLower ("Toy Story".data) = toLower ("Toy Story".data) ∧
    (search_keyword
        [⟨1, ("Toy Story".data), some ("toys come alive".data), some 1995, some 50⟩,
         ⟨3, ("Toy Story 3".data), some ("toys again".data), some 2010, some 90⟩]
        ("Toy Story".data) 5).head? =
      some ⟨3, ("Toy Story 3".data), some ("toys again".data), some 2010, 90, some Source.keyword⟩ ∧
    toLower ("Toy Story 3".data) ≠ toLower ("Toy Story".data) := by
  refine ⟨by decide, rfl, by decide, by decide⟩

/-- C3 amended: keyword search returns exactly the rows whose title or
overview contains the query case-insensitively, ordered purely by descending
popularity with NULLs last (no exact-match bucket), truncated to the limit. -/
theorem C3_amended_popularity_only (movies : List MovieRow) (query : Str) (limit : Nat) :
    List.Sorted popDescNullsLast (search_keyword_rows movies query) ∧
    (∀ r ∈ search_keyword_rows movies query, r ∈ movies ∧ keywordWhere query r = true) ∧
    (∀ r ∈ movies, keywordWhere query r = true → r ∈ search_keyword_rows movies query) ∧
    search_keyword movies query limit =
      ((search_keyword_rows movies query).take limit).map (fun r =>
        ⟨r.tmdbId, r.title, r.overview, r.year, r.popularity.getD 0, some Source.keyword⟩) ∧
    (search_keyword movies query limit).length ≤ limit := by
  refine ⟨List.sorted_insertionSort popDescNullsLast _, ?_, ?_, rfl, ?_⟩
  · intro r hr
    have : r ∈ movies.filter (keywordWhere query) :=
      (List.perm_insertionSort popDescNullsLast _).mem_iff.mp hr
    exact ⟨List.mem_filter.mp this |>.1, List.mem_filter.mp this |>.2⟩
  · intro r hr hq
    exact (List.perm_insertionSort popDescNullsLast _).mem_iff.mpr
      (List.mem_filter.mpr ⟨hr, hq⟩)
  · unfold search_keyword
    rw [List.length_map, List.length_take]
    exact min_le_left _ _

/-- C3 witness: the "Toy Story" row matches the WHERE clause for the query
"toy story" and therefore appears in the keyword result set. -/
theorem C3_witness :
    (keywordWhere ("toy story".data)
      (⟨1, ("Toy Story".data), some ("toys come alive".data), some 1995, some 50⟩ : MovieRow) = true) ∧
    ((⟨1, ("Toy Story".data), some ("toys come alive".data), some 1995, some 50⟩ : MovieRow) ∈
      search_keyword_rows
        [⟨1, ("Toy Story".data), some ("toys come alive".data), some 1995, some 50⟩]
        ("toy story".data)) :=
  ⟨by decide,
   (C3_amended_popularity_only
       [⟨1, ("Toy Story".data), some ("toys come alive".data), some 1995, some 50⟩]
       ("toy story".data) 5).2.2.1
     ⟨1, ("Toy Story".data), some ("toys come alive".data), some 1995, some 50⟩
     (by decide) (by decide)⟩

/-- C6: the external-API fallback is idempotent: starting from a state whose
index is loaded and which holds no row and no metadata entry for the
identifier, running `_search_and_add_from_tmdb` twice on the same (parseable)
candidate leaves exactly one record-store row and exactly one vector/metadata
entry for that identifier — the second run is skipped by the record-store
presence check. -/
theorem C6_fallback_idempotent (st : OrchState) (m : TmdbMovie)
    (hidx : st.hasIndex = true)
    (hdb : dbRowsFor st.movies m.id = 0)
    (hmeta : metaEntriesFor st.metadata m.id = 0)
    (hdate : releaseDateParses m = true) :
    dbRowsFor (search_and_add_from_tmdb (search_and_add_from_tmdb st [m]).2 [m]).2.movies m.id = 1 ∧
    metaEntriesFor (search_and_add_from_tmdb (search_and_add_from_tmdb st [m]).2 [m]).2.metadata m.id = 1 ∧
    (search_and_add_from_tmdb (search_and_add_from_tmdb st [m]).2 [m]).2.ntotal = st.ntotal + 1 := by
  have hfilter : st.movies.filter (fun r => r.tmdbId == m.id) = [] :=
    List.length_eq_zero.mp hdb
  have hmfilter : st.metadata.filter (fun x => x.tmdbId == m.id) = [] :=
    List.length_eq_zero.mp hmeta
  have hfind : st.movies.find? (fun r => r.tmdbId == m.id) = none := by
    rw [List.find?_eq_none]
    intro x hx hpx
    have hmem : x ∈ st.movies.filter (fun r => r.tmdbId == m.id) :=
      List.mem_filter.mpr ⟨hx, hpx⟩
    rw [hfilter] at hmem
    exact absurd hmem (List.not_mem_nil x)
  have hany : st.movies.any (fun r => r.tmdbId == m.id) = false := by
    rw [List.any_eq_false]
    intro x hx hpx
    have hmem : x ∈ st.movies.filter (fun r => r.tmdbId == m.id) :=
      List.mem_filter.mpr ⟨hx, hpx⟩
    rw [hfilter] at hmem
    exact absurd hmem (List.not_mem_nil x)
  have hget1 : get_movie_from_db st.movies m.id = none := by
    unfold get_movie_from_db
    rw [hfind]
    rfl
  have hins : ∃ yr : Option Int,
      insert_movie_to_db st.movies m =
        some (st.movies ++ [⟨m.id, m.title, some m.overview, yr, some m.popularity⟩],
              ⟨m.id, m.title, some m.overview, yr, m.popularity, none⟩) := by
    by_cases hemp : m.releaseDate.isEmpty
    · refine ⟨none, ?_⟩
      simp [insert_movie_to_db, upsertMovie, hany, hemp]
    · have hsome : (parseNat (m.releaseDate.take 4)).isSome = true := by
        unfold releaseDateParses at hdate
        rw [Bool.or_eq_true] at hdate
        rcases hdate with h | h
        · exact absurd h hemp
        · exact h
      obtain ⟨y, hy⟩ := Option.isSome_iff_exists.mp hsome
      refine ⟨some (y : Int), ?_⟩
      simp [insert_movie_to_db, upsertMovie, hany, hemp, hy]
  obtain ⟨yr, hins⟩ := hins
  have hrun1 : search_and_add_from_tmdb st [m] =
      ([⟨m.id, m.title, some m.overview, yr, m.popularity, none⟩],
       ⟨st.movies ++ [⟨m.id, m.title, some m.overview, yr, some m.popularity⟩],
        st.hasIndex, st.ntotal + 1,
        st.metadata ++ [⟨m.id, m.title, yr, some m.popularity⟩]⟩) := by
    unfold search_and_add_from_tmdb
    simp only [List.take, search_and_add_from_tmdb.go, hget1, hins, add_to_faiss_index, hidx,
      if_true]
  have hfind2 : (st.movies ++ [(⟨m.id, m.title, some m.overview, yr, some m.popularity⟩ : MovieRow)]).find?
      (fun r => r.tmdbId == m.id) = some ⟨m.id, m.title, some m.overview, yr, some m.popularity⟩ := by
    rw [List.find?_append, hfind]
    simp [List.find?]
  have hget2 : get_movie_from_db
      (st.movies ++ [(⟨m.id, m.title, some m.overview, yr, some m.popularity⟩ : MovieRow)]) m.id =
      some ⟨m.id, m.title, some m.overview, yr, m.popularity, some Source.database⟩ := by
    unfold get_movie_from_db
    rw [hfind2]
    rfl
  have hrun2 : search_and_add_from_tmdb
      (⟨st.movies ++ [⟨m.id, m.title, some m.overview, yr, some m.popularity⟩],
        st.hasIndex, st.ntotal + 1,
        st.metadata ++ [⟨m.id, m.title, yr, some m.popularity⟩]⟩ : OrchState) [m] =
      ([⟨m.id, m.title, some m.overview, yr, m.popularity, some Source.database⟩],
       ⟨st.movies ++ [⟨m.id, m.title, some m.overview, yr, some m.popularity⟩],
        st.hasIndex, st.ntotal + 1,
        st.metadata ++ [⟨m.id, m.title, yr, some m.popularity⟩]⟩) := by
    unfold search_and_add_from_tmdb
    simp only [List.take, search_and_add_from_tmdb.go, hget2]
  rw [hrun1]
  rw [hrun2]
  refine ⟨?_, ?_, rfl⟩
  · unfold dbRowsFor
    rw [List.filter_append, hfilter]
    simp
  · unfold metaEntriesFor
    rw [List.filter_append, hmfilter]
    simp

/-- C6 witness: a fresh identifier added twice from an empty store yields one
row and one metadata entry. -/
theorem C6_witness :
    ((⟨[], true, 0, []⟩ : OrchState).hasIndex = true) ∧
    dbRowsFor ([] : List MovieRow) 42 = 0 ∧
    metaEntriesFor ([] : List Meta) 42 = 0 ∧
    releaseDateParses ⟨42, ("New Movie".data), ("great".data), ("2010-05-01".data), 5⟩ = true ∧
    (dbRowsFor (search_and_add_from_tmdb
        (search_and_add_from_tmdb ⟨[], true, 0, []⟩
          [⟨42, ("New Movie".data), ("great".data), ("2010-05-01".data), 5⟩]).2
        [⟨42, ("New Movie".data), ("great".data), ("2010-05-01".data), 5⟩]).2.movies 42 = 1 ∧
     metaEntriesFor (search_and_add_from_tmdb
        (search_and_add_from_tmdb ⟨[], true, 0, []⟩
          [⟨42, ("New Movie".data), ("great".data), ("2010-05-01".data), 5⟩]).2
        [⟨42, ("New Movie".data), ("great".data), ("2010-05-01".data), 5⟩]).2.metadata 42 = 1 ∧
     (search_and_add_from_tmdb (search_and_add_from_tmdb ⟨[], true, 0, []⟩
          [⟨42, ("New Movie".data), ("great".data), ("2010-05-01".data), 5⟩]).2
        [⟨42, ("New Movie".data), ("great".data), ("2010-05-01".data), 5⟩]).2.ntotal =
       (⟨[], true, 0, []⟩ : OrchState).ntotal + 1) :=
  ⟨rfl, rfl, rfl, by decide,
   C6_fallback_idempotent ⟨[], true, 0, []⟩
     ⟨42, ("New Movie".data), ("great".data), ("2010-05-01".data), 5⟩
     rfl rfl rfl (by decide)⟩

/-- C4 counterexample: "tell me about Tom Hanks movies" matches both a plot
pattern (`tell me about ...`) and an actor-filmography pattern
(`(.+?) (?:filmography|movies|films)$`), yet it is dispatched to the actor
filmography handler, not the plot handler: the filmography categories are
tried before plot, contradicting the claimed priority order. -/
theorem C4_counterexample :
    category_matches .plot (strip (toLower ("tell me about Tom Hanks movies".data))) = true ∧
    category_matches .actorFilmography
      (strip (toLower ("tell me about Tom Hanks movies".data))) = true ∧
    answer_question_intent ("tell me about Tom Hanks movies".data) =
      some IntentCategory.actorFilmography := by
  refine ⟨by decide, by decide, by decide⟩

/-- C4 amended: the dispatcher tries the intent categories in the order
director, cast, actor filmography, director filmography, plot, year,
box office, and the first category with a matching pattern wins; in
particular a question matching both a plot pattern and an actor-filmography
pattern (and no director or cast pattern) is dispatched to the actor
filmography handler. -/
theorem C4_amended_priority_order (question : Str) :
    answer_question_intent question =
      ([IntentCategory.director, IntentCategory.cast, IntentCategory.actorFilmography,
        IntentCategory.directorFilmography, IntentCategory.plot, IntentCategory.year,
        IntentCategory.boxOffice].find?
        (fun c => category_matches c (strip (toLower question)))) ∧
    (category_matches .plot (strip (toLower question)) = true →
     category_matches .actorFilmography (strip (toLower question)) = true →
     category_matches .director (strip (toLower question)) = false →
     category_matches .cast (strip (toLower question)) = false →
     answer_question_intent question = some IntentCategory.actorFilmography) := by
  constructor
  · simp only [answer_question_intent]
    cases h1 : category_matches .director (strip (toLower question)) <;>
    cases h2 : category_matches .cast (strip (toLower question)) <;>
    cases h3 : category_matches .actorFilmography (strip (toLower question)) <;>
    cases h4 : category_matches .directorFilmography (strip (toLower question)) <;>
    cases h5 : category_matches .plot (strip (toLower question)) <;>
    cases h6 : category_matches .year (strip (toLower question)) <;>
    cases h7 : category_matches .boxOffice (strip (toLower question)) <;>
    simp [List.find?, h1, h2, h3, h4, h5, h6, h7]
  · intro h5 h3 h1 h2
    simp [answer_question_intent, h1, h2, h3]

/-- C4 witness: the priority statement applied to the concrete double-match
question. -/
theorem C4_witness :
    answer_question_intent ("tell me about the best films by Meryl Streep".data) =
      some IntentCategory.actorFilmography :=
  (C4_amended_priority_order ("tell me about the best films by Meryl Streep".data)).2
    (by decide) (by decide) (by decide) (by decide)

/-- C5 counterexample: for the single assistant turn "Lana Wachowski directed
The Matrix (1999)." and the question "who was in it", the context resolver
forwards the question unchanged — the rewritten question does not reference
"The Matrix" (the movie-extraction pattern requires the title to follow
"of", "for" or "in", which a director-phrased turn lacks). -/
theorem C5_counterexample :
    answer_question_with_context_rewrite ("who was in it".data)
      [⟨("assistant".data), ("Lana Wachowski directed The Matrix (1999).".data)⟩] =
      ("who was in it".data) ∧
    PyStr.contains
      (answer_question_with_context_rewrite ("who was in it".data)
        [⟨("assistant".data), ("Lana Wachowski directed The Matrix (1999).".data)⟩])
      ("The Matrix".data) = false := by
  refine ⟨by decide, by decide⟩

/-- C5 amended: the resolver recovers a movie from history only when the
title follows "of", "for" or "in" in an assistant turn: with the
director-phrased history turn the extraction yields no movie (only the
director "Lana Wachowski") and "who was in it" passes through unchanged,
whereas with the cast-phrased turn "Cast of The Matrix (1999): ..." the same
question is rewritten to "who was in The Matrix". -/
theorem C5_amended_extraction_shape :
    answer_question_with_context_rewrite ("who was in it".data)
      [⟨("assistant".data), ("Lana Wachowski directed The Matrix (1999).".data)⟩] =
      ("who was in it".data) ∧
    moviesFromContent ("Lana Wachowski directed The Matrix (1999).".data) = [] ∧
    directorFromContent ("Lana Wachowski directed The Matrix (1999).".data) =
      some ("Lana Wachowski".data) ∧
    moviesFromContent ("Cast of The Matrix (1999): Keanu Reeves, Laurence Fishburne.".data) =
      [(("The Matrix".data), 1999)] ∧
    answer_question_with_context_rewrite ("who was in it".data)
      [⟨("assistant".data),
        ("Cast of The Matrix (1999): Keanu Reeves, Laurence Fishburne.".data)⟩] =
      ("who was in The Matrix".data) := by
  refine ⟨by decide, by decide, by decide, by decide, by decide⟩

/-- C1 counterexample: in a concrete environment whose index search yields
two enrichable hits, `search_hybrid` executes only the semantic phase — the
keyword phase never runs at all, contradicting "keyword runs first and
unconditionally". -/
theorem C1_counterexample :
    search_hybrid C1Data.env ("q".data) 5 =
      Except.ok (C1Data.enriched, C1Data.env.state, [Phase.semantic]) ∧
    Phase.keyword ∉ [Phase.semantic] := by
  refine ⟨by decide, by decide⟩

/-- C1 amended: the semantic (FAISS) phase runs first and unconditionally;
the keyword phase runs exactly when the semantic phase's enriched results
number fewer than 2; the TMDb fallback runs exactly when both the semantic
and keyword phases produced nothing. -/
theorem C1_amended_semantic_first (env : HybridEnv) (query : Str) (limit : Nat)
    (enriched : List ResultMovie) (res : List ResultMovie × OrchState × List Phase)
    (h1 : semantic_enriched env query limit = Except.ok enriched)
    (h2 : search_hybrid env query limit = Except.ok res) :
    res.2.2.head? = some Phase.semantic ∧
    (Phase.keyword ∈ res.2.2 ↔ enriched.length < 2) ∧
    (Phase.tmdbFallback ∈ res.2.2 ↔
      (enriched = [] ∧ search_keyword env.state.movies (enhance_query query) limit = [])) := by
  unfold search_hybrid at h2
  rw [h1] at h2
  simp only [Except.map, Except.ok.injEq] at h2
  subst h2
  by_cases hlt : enriched.length < 2
  · have hk : (enriched.isEmpty || decide (enriched.length < 2)) = true := by
      simp [hlt]
    simp only [hk, if_true]
    by_cases hkw : search_keyword env.state.movies (enhance_query query) limit = []
    · by_cases hen : enriched = []
      · subst hen
        simp [hkw, List.head?]
      · have hne : (enriched ++ search_keyword env.state.movies (enhance_query query) limit).isEmpty = false := by
          simp [hkw]
          intro hc
          exact absurd hc hen
        simp [hne, List.head?, hlt]
        intro hc
        exact absurd hc hen
    · have hne : (enriched ++ search_keyword env.state.movies (enhance_query query) limit).isEmpty = false := by
        cases hj : enriched ++ search_keyword env.state.movies (enhance_query query) limit
        · rcases List.append_eq_nil.mp hj with ⟨_, hr⟩
          exact absurd hr hkw
        · rfl
      simp [hne, List.head?, hlt]
      intro _ hc
      exact absurd hc hkw
  · have hne : enriched.isEmpty = false := by
      cases he : enriched
      · subst he
        simp at hlt
      · rfl
    have hk : (enriched.isEmpty || decide (enriched.length < 2)) = false := by
      simp [hne, decide_eq_false hlt]
    simp only [hk, if_false, Bool.false_eq_true]
    simp [hne, List.head?, hlt]
    intro hc
    subst hc
    simp at hlt

/-- C1 witness: the phase characterization applied to the concrete
environment. -/
theorem C1_witness :
    ([Phase.semantic] : List Phase).head? = some Phase.semantic ∧
    (Phase.keyword ∈ ([Phase.semantic] : List Phase) ↔ C1Data.enriched.length < 2) ∧
    (Phase.tmdbFallback ∈ ([Phase.semantic] : List Phase) ↔
      (C1Data.enriched = [] ∧
       search_keyword C1Data.env.state.movies (enhance_query ("q".data)) 5 = [])) :=
  C1_amended_semantic_first C1Data.env ("q".data) 5 C1Data.enriched
    (C1Data.enriched, C1Data.env.state, [Phase.semantic]) (by decide) (by decide)

end Theorems
